import Mathlib

/-!
Verification of the session and second-factor subsystem of a Rust todo
backend (actix-web + Redis + Postgres).  The Rust sources are shallowly
embedded as pure Lean functions:

* machine integers (`u64`, `u32`, bytes) become `Nat` with explicit
  reduction `% 2 ^ 32` where overflow matters;
* the Redis cache store becomes an association list of
  `key -> (value, ttl)` plus a schedule of per-call connection
  outcomes (the async connection in `redis_client.rs` can fail at each
  call; a missing schedule entry means the call is healthy);
* fallible Rust code returning `Result` becomes `Except`;
* JWT encode/decode is modelled by passing the claim set itself: a
  token string is represented by its decoded `Claims`, and an
  undecodable/forged token by `Option.none`;
* SHA-1, HMAC-SHA1, the `totp_rs` code path, SHA-256 and hex encoding
  are implemented concretely over byte lists (`List Nat`), so that all
  statements about one-time codes and backup codes are executable.
-/

namespace TodoBackend

/-- Error type of `src/error/user_error.rs` (`UserError`). -/
inductive UserError where
  | UserCreationFailure
  | NoSuchUserFound
  | AuthenticationFailure
  | UserAlreadyExists
  | ValidationError (msg : String)
  | InvalidRefreshToken
  | TokenCreationFailure
  | PasswordHashingFailure
  | InvalidCredentials
  | TwoFactorRequired
  | TwoFactorAlreadyEnabled
  | TwoFactorNotEnabled
  | InvalidTwoFactorCode
  | TwoFactorSecretGenerationFailure
  | QRCodeGenerationFailure
  | BadRequest (msg : String)
  | DatabaseError (msg : String)
deriving DecidableEq, Repr

/-- The `redis::RedisError` values reaching this code are connection /
command failures; their payload is irrelevant to the control flow, so the
model collapses them to one constructor. -/
inductive RedisError where
  | connectionFailure
deriving DecidableEq, Repr

/-- JWT claim set of `src/routers/user.rs` (`struct Claims`).  `exp` is a
Unix timestamp in seconds. -/
structure Claims where
  sub : String
  exp : Nat
  token_type : String
  user_id : Option String
deriving DecidableEq, Repr

/-- User record of `src/models/user.rs` (`struct User`).  Hashed backup
codes (hex digests, stored as ASCII byte lists, see the SHA-256 section)
replace the Rust `Vec<String>`. -/
structure User where
  uuid : String
  email : String
  name : String
  password : String
  created_at : String
  updated_at : String
  two_factor_enabled : Bool
  two_factor_secret : Option String
  backup_codes : Option (List (List Nat))
deriving DecidableEq, Repr

/-! ## Redis model (`src/db/redis_client.rs`)

The key space is flat strings, exactly as the Rust client uses it
(`token_id` keys and `user:email:<email>` keys share one store).  A
stored entry records the value and the TTL it was set with; expiry
itself is server-side and not exercised by any claim. -/

/-- The key/value content of the Redis server: `key -> (value, ttl)`. -/
def Store : Type := List (String × String × Nat)

/-- `GET key`: first binding for the key, if any. -/
def storeGet (s : Store) (k : String) : Option String :=
  (List.find? (fun e => e.1 == k) s).map (fun e => e.2.1)

/-- `SET key value EX ttl`: overwrite any previous binding. -/
def storeSet (s : Store) (k v : String) (ttl : Nat) : Store :=
  (k, v, ttl) :: List.filter (fun e => e.1 != k) s

/-- `DEL key`. -/
def storeDel (s : Store) (k : String) : Store :=
  List.filter (fun e => e.1 != k) s

/-- State of the Redis client: server content plus a schedule of
connection outcomes, one per client call (`get_conn` / command round
trip).  `false` means that call fails with a `RedisError`; when the
schedule is exhausted every further call is healthy. -/
structure Redis where
  store : Store
  conn : List Bool

/-- Take the next connection outcome off the schedule. -/
def popConn (r : Redis) : Bool × Redis :=
  match r.conn with
  | [] => (true, r)
  | b :: rest => (b, { r with conn := rest })

/-- `RedisClient::store_token_state` (redis_client.rs lines 34-49):
`SET token_id user_id EX ttl_seconds`. -/
def store_token_state (tokenId userId : String) (ttlSeconds : Nat) (r : Redis) :
    Except RedisError Unit × Redis :=
  let (ok, r1) := popConn r
  if ok then
    (Except.ok (), { r1 with store := storeSet r1.store tokenId userId ttlSeconds })
  else
    (Except.error RedisError.connectionFailure, r1)

/-- `RedisClient::validate_and_invalidate_token` (redis_client.rs lines
51-70): `GET token_id`; if a value is present, `DEL token_id`; returns
the value read.  The GET and the DEL are two separate commands in the
source; this sequential model executes them without interference (the
interleaved model for the concurrency claim is below). -/
def validate_and_invalidate_token (tokenId : String) (r : Redis) :
    Except RedisError (Option String) × Redis :=
  let (ok, r1) := popConn r
  if ok then
    match storeGet r1.store tokenId with
    | some userId =>
        (Except.ok (some userId), { r1 with store := storeDel r1.store tokenId })
    | none => (Except.ok none, r1)
  else
    (Except.error RedisError.connectionFailure, r1)

/-- `CacheService::get_cached` for `RedisClient` (redis_client.rs lines
81-95): `GET key`, then deserialize; a miss or a deserialization failure
yields `Ok(None)`, a connection/command failure yields `Err`.
`parse` stands for `serde_json::from_str::<T>`. -/
def get_cached {α : Type} (parse : String → Option α) (key : String) (r : Redis) :
    Except RedisError (Option α) × Redis :=
  let (ok, r1) := popConn r
  if ok then
    match storeGet r1.store key with
    | some data =>
        match parse data with
        | some parsed => (Except.ok (some parsed), r1)
        | none => (Except.ok none, r1)
    | none => (Except.ok none, r1)
  else
    (Except.error RedisError.connectionFailure, r1)

theorem storeGet_storeSet_self (s : Store) (k v : String) (ttl : Nat) :
    storeGet (storeSet s k v ttl) k = some v := by
  simp [storeGet, storeSet, List.find?]

theorem storeGet_storeDel_self (s : Store) (k : String) :
    storeGet (storeDel s k) k = none := by
  induction s with
  | nil => rfl
  | cons e rest ih =>
      simp only [storeDel] at ih ⊢
      by_cases h : e.1 = k
      · rw [List.filter_cons_of_neg (by simp [h])]
        exact ih
      · rw [List.filter_cons_of_pos (by simp [h])]
        simp only [storeGet]
        rw [List.find?_cons_of_neg _ (by simp [h])]
        exact ih

/-! ## Token service (`src/services/token_service.rs`,
`src/routers/user.rs` lines 48-120) -/

/-- `generate_jwt_token` (token_service.rs lines 7-36).  The produced JWT
string is represented by its claim set; `now` is the Unix time at which
the token is minted (`Utc::now()`), and the expiry is `now` plus the
requested number of hours.  HMAC signing of the compact encoding cannot
fail for these inputs, so the `Err` branch (mapped to
`AuthenticationFailure` in the source) is not reachable in the model. -/
def generate_jwt_token (subject tokenType : String) (expiresInHours : Nat)
    (userId : Option String) (now : Nat) : Claims :=
  { sub := subject
    exp := now + expiresInHours * 3600
    token_type := tokenType
    user_id := userId }

/-- `generate_token_pair` (routers/user.rs lines 48-82).  `tokenId` is the
freshly drawn `Uuid::new_v4()`; the two minting tasks are pure, so the
`tokio::spawn` join is direct composition.  The pair is returned only
after `store_token_state` persisted `token_id -> user_id` with a 7-day
TTL; a Redis failure surfaces as `TokenCreationFailure`. -/
def generate_token_pair (userId tokenId : String) (now : Nat) (r : Redis) :
    Except UserError (Claims × Claims) × Redis :=
  let accessToken := generate_jwt_token userId "access" 1 none now
  let refreshToken := generate_jwt_token tokenId "refresh" (24 * 7) (some userId) now
  match store_token_state tokenId userId (7 * 24 * 60 * 60) r with
  | (Except.ok _, r1) => (Except.ok (accessToken, refreshToken), r1)
  | (Except.error _, r1) => (Except.error UserError.TokenCreationFailure, r1)

/-- `validate_refresh_token` (routers/user.rs lines 84-120).  `token` is
the decoded claim set of the presented refresh token; `none` stands for a
string that fails signature/expiry validation in `jsonwebtoken::decode`. -/
def validate_refresh_token (token : Option Claims) (r : Redis) :
    Except UserError String × Redis :=
  match token with
  | none => (Except.error UserError.InvalidRefreshToken, r)
  | some claims =>
      if claims.token_type ≠ "refresh" then
        (Except.error UserError.InvalidRefreshToken, r)
      else
        match claims.user_id with
        | none => (Except.error UserError.InvalidRefreshToken, r)
        | some userId =>
            match validate_and_invalidate_token claims.sub r with
            | (Except.ok (some storedUserId), r1) =>
                if storedUserId ≠ userId then
                  (Except.error UserError.InvalidRefreshToken, r1)
                else
                  (Except.ok userId, r1)
            | (Except.ok none, r1) => (Except.error UserError.InvalidRefreshToken, r1)
            | (Except.error _, r1) => (Except.error UserError.AuthenticationFailure, r1)

/-- `refresh_token_endpoint` (routers/user.rs lines 273-290).  `db` is the
user store (`get_user_by_uuid`); `newTokenId` the uuid drawn for the new
refresh token. -/
def refresh_token_endpoint (token : Option Claims) (db : String → Except UserError User)
    (newTokenId : String) (now : Nat) (r : Redis) :
    Except UserError (Claims × Claims) × Redis :=
  match validate_refresh_token token r with
  | (Except.error e, r1) => (Except.error e, r1)
  | (Except.ok userId, r1) =>
      match db userId with
      | Except.error e => (Except.error e, r1)
      | Except.ok user => generate_token_pair user.uuid newTokenId now r1

/-! ## 32-bit helpers and Merkle-Damgard plumbing

Byte strings are `List Nat` with entries below 256; 32-bit words are
`Nat` reduced by `w32`. -/

/-- Reduce to a 32-bit word. -/
def w32 (n : Nat) : Nat := n % 4294967296

/-- Rotate a 32-bit word left by `b` (for `0 < b < 32`, `n < 2 ^ 32`). -/
def rotl (b n : Nat) : Nat := w32 ((n <<< b) ||| (n >>> (32 - b)))

/-- Rotate a 32-bit word right by `b` (for `0 < b < 32`, `n < 2 ^ 32`). -/
def rotr (b n : Nat) : Nat := w32 ((n >>> b) ||| (n <<< (32 - b)))

/-- Big-endian 4-byte encoding of a 32-bit word. -/
def be32 (n : Nat) : List Nat :=
  [(n >>> 24) % 256, (n >>> 16) % 256, (n >>> 8) % 256, n % 256]

/-- Big-endian 8-byte encoding of a 64-bit value (`u64::to_be_bytes`). -/
def be64 (n : Nat) : List Nat :=
  [(n >>> 56) % 256, (n >>> 48) % 256, (n >>> 40) % 256, (n >>> 32) % 256,
   (n >>> 24) % 256, (n >>> 16) % 256, (n >>> 8) % 256, n % 256]

/-- Group bytes into big-endian 32-bit words. -/
def bytesToWords : List Nat → List Nat
  | b0 :: b1 :: b2 :: b3 :: rest =>
      ((b0 <<< 24) ||| (b1 <<< 16) ||| (b2 <<< 8) ||| b3) :: bytesToWords rest
  | _ => []

/-- SHA-1/SHA-256 message padding: `0x80`, zeros to 56 mod 64, then the
bit length as a big-endian 64-bit value. -/
def shaPad (msg : List Nat) : List Nat :=
  msg ++ 128 :: List.replicate ((119 - msg.length % 64) % 64) 0 ++ be64 (8 * msg.length)

/-! ## SHA-256 (the `sha2` crate as used by `two_factor_service.rs`) -/

/-- The 64 SHA-256 round constants (FIPS 180-4, in decimal). -/
def sha256K : List Nat :=
  [1116352408, 1899447441, 3049323471, 3921009573, 961987163, 1508970993,
   2453635748, 2870763221, 3624381080, 310598401, 607225278, 1426881987,
   1925078388, 2162078206, 2614888103, 3248222580, 3835390401, 4022224774,
   264347078, 604807628, 770255983, 1249150122, 1555081692, 1996064986,
   2554220882, 2821834349, 2952996808, 3210313671, 3336571891, 3584528711,
   113926993, 338241895, 666307205, 773529912, 1294757372, 1396182291,
   1695183700, 1986661051, 2177026350, 2456956037, 2730485921, 2820302411,
   3259730800, 3345764771, 3516065817, 3600352804, 4094571909, 275423344,
   430227734, 506948616, 659060556, 883997877, 958139571, 1322822218,
   1537002063, 1747873779, 1955562222, 2024104815, 2227730452, 2361852424,
   2428436474, 2756734187, 3204031479, 3329325298]

/-- Extend a 16-word block to the 64-word SHA-256 message schedule.
The words produced so far are kept most-recent-first, so `w[i-2]` is at
index 1, `w[i-7]` at index 6, `w[i-15]` at index 14 and `w[i-16]` at
index 15; `k` is the number of words still to produce. -/
def sha256Extend (window : List Nat) : Nat → List Nat
  | 0 => window.reverse
  | k + 1 =>
      let x := window.getD 14 0
      let y := window.getD 1 0
      let s0 := rotr 7 x ^^^ rotr 18 x ^^^ (x >>> 3)
      let s1 := rotr 17 y ^^^ rotr 19 y ^^^ (y >>> 10)
      sha256Extend (w32 (window.getD 15 0 + s0 + window.getD 6 0 + s1) :: window) k

/-- One SHA-256 round on the state `(a, b, c, d, e, f, g, h)`. -/
def sha256Step (st : Nat × Nat × Nat × Nat × Nat × Nat × Nat × Nat) (kw : Nat × Nat) :
    Nat × Nat × Nat × Nat × Nat × Nat × Nat × Nat :=
  match st with
  | (a, b, c, d, e, f, g, h) =>
      let s1 := rotr 6 e ^^^ rotr 11 e ^^^ rotr 25 e
      let ch := (e &&& f) ^^^ ((e ^^^ 4294967295) &&& g)
      let t1 := w32 (h + s1 + ch + kw.1 + kw.2)
      let s0 := rotr 2 a ^^^ rotr 13 a ^^^ rotr 22 a
      let maj := (a &&& b) ^^^ (a &&& c) ^^^ (b &&& c)
      let t2 := w32 (s0 + maj)
      (w32 (t1 + t2), a, b, c, w32 (d + t1), e, f, g)

/-- SHA-256 compression of one 64-byte block into the hash state. -/
def sha256Compress (h : List Nat) (block : List Nat) : List Nat :=
  let ws := sha256Extend (bytesToWords block).reverse 48
  let h0 := h.getD 0 0
  let h1 := h.getD 1 0
  let h2 := h.getD 2 0
  let h3 := h.getD 3 0
  let h4 := h.getD 4 0
  let h5 := h.getD 5 0
  let h6 := h.getD 6 0
  let h7 := h.getD 7 0
  match (sha256K.zip ws).foldl sha256Step (h0, h1, h2, h3, h4, h5, h6, h7) with
  | (a, b, c, d, e, f, g, hh) =>
      [w32 (h0 + a), w32 (h1 + b), w32 (h2 + c), w32 (h3 + d),
       w32 (h4 + e), w32 (h5 + f), w32 (h6 + g), w32 (h7 + hh)]

/-- Fold a compression function over `k` consecutive 64-byte blocks. -/
def shaBlocks (compress : List Nat → List Nat → List Nat) :
    Nat → List Nat → List Nat → List Nat
  | 0, h, _ => h
  | k + 1, h, msg => shaBlocks compress k (compress h (msg.take 64)) (msg.drop 64)

/-- SHA-256 digest (32 bytes) of a byte string. -/
def sha256 (msg : List Nat) : List Nat :=
  let padded := shaPad msg
  let h := shaBlocks sha256Compress (padded.length / 64)
    [1779033703, 3144134277, 1013904242, 2773480762,
     1359893119, 2600822924, 528734635, 1541459225] padded
  List.flatten (h.map be32)

/-- One lowercase hex digit as an ASCII byte (`hex::encode` digits). -/
def hexDigit (n : Nat) : Nat := if n < 10 then 48 + n else 87 + n

/-- `hex::encode` of a byte string, as ASCII bytes. -/
def hexBytes (bytes : List Nat) : List Nat :=
  bytes.foldr (fun b acc => hexDigit (b / 16) :: hexDigit (b % 16) :: acc) []

/-! ## Backup codes (`src/services/two_factor_service.rs` lines 85-145)

Rust `String`s holding codes and digests are ASCII, modelled as their
byte lists (`code.as_bytes()` is what the source hashes). -/

/-- One character of a backup code, from a draw of
`rng.random_range(0..36)`: `0-9` below 10, `a-z` from 10. -/
def backup_char (v : Fin 36) : Nat :=
  if v.val < 10 then 48 + v.val else 97 + (v.val - 10)

/-- `Sha256::digest` then `hex::encode`, the stored form of one code. -/
def backup_hash (code : List Nat) : List Nat := hexBytes (sha256 code)

/-- The plain codes drawn by `generate_backup_codes` from the draw
sequence `σ` (draw `i * 10 + j` is character `j` of code `i`). -/
def backup_plain_codes (σ : Nat → Fin 36) (n : Nat) : List (List Nat) :=
  (List.range n).map (fun i => (List.range 10).map (fun j => backup_char (σ (i * 10 + j))))

/-- `generate_backup_codes` (two_factor_service.rs lines 89-120): `count`
defaults to 10; returns the plain codes and their hex SHA-256 digests. -/
def generate_backup_codes (σ : Nat → Fin 36) (count : Option Nat) :
    List (List Nat) × List (List Nat) :=
  let n := count.getD 10
  (backup_plain_codes σ n, (backup_plain_codes σ n).map backup_hash)

/-- `verify_backup_code` (two_factor_service.rs lines 125-133): position
of the input's digest in the stored digest list. -/
def verify_backup_code (code : List Nat) (hashedCodes : List (List Nat)) : Option Nat :=
  hashedCodes.findIdx? (fun hashed => hashed == backup_hash code)

/-- `format_backup_code` (two_factor_service.rs lines 138-145): insert
`-` (byte 45) after the first half. -/
def format_backup_code (code : List Nat) : List Nat :=
  if code.length ≥ 10 then code.take 5 ++ 45 :: code.drop 5 else code

/-- `str::replace("-", "")` as applied to a presented backup code
(routers/user.rs line 505). -/
def strip_separator (code : List Nat) : List Nat :=
  code.filter (fun b => b != 45)

/-! ## SHA-1, HMAC-SHA1 and the `totp_rs` code path
(`src/services/two_factor_service.rs` lines 11-83) -/

/-- Extend a 16-word block to the 80-word SHA-1 message schedule.  As in
`sha256Extend` the words produced so far are most-recent-first:
`w[i-3]` is at index 2, `w[i-8]` at 7, `w[i-14]` at 13, `w[i-16]` at 15. -/
def sha1Extend (window : List Nat) : Nat → List Nat
  | 0 => window.reverse
  | k + 1 =>
      let w := rotl 1 (window.getD 2 0 ^^^ window.getD 7 0 ^^^
        window.getD 13 0 ^^^ window.getD 15 0)
      sha1Extend (w :: window) k

/-- SHA-1 round function selection for round `i`. -/
def sha1F (i b c d : Nat) : Nat :=
  if i < 20 then (b &&& c) ||| ((b ^^^ 4294967295) &&& d)
  else if i < 40 then b ^^^ c ^^^ d
  else if i < 60 then (b &&& c) ||| (b &&& d) ||| (c &&& d)
  else b ^^^ c ^^^ d

/-- SHA-1 round constant for round `i`. -/
def sha1K (i : Nat) : Nat :=
  if i < 20 then 1518500249
  else if i < 40 then 1859775393
  else if i < 60 then 2400959708
  else 3395469782

/-- One SHA-1 round on the state `(a, b, c, d, e)`; `iw` is the round
index paired with the schedule word. -/
def sha1Step (st : Nat × Nat × Nat × Nat × Nat) (iw : Nat × Nat) :
    Nat × Nat × Nat × Nat × Nat :=
  match st with
  | (a, b, c, d, e) =>
      (w32 (rotl 5 a + sha1F iw.1 b c d + e + sha1K iw.1 + iw.2), a, rotl 30 b, c, d)

/-- SHA-1 compression of one 64-byte block into the hash state. -/
def sha1Compress (h : List Nat) (block : List Nat) : List Nat :=
  let ws := sha1Extend (bytesToWords block).reverse 64
  let h0 := h.getD 0 0
  let h1 := h.getD 1 0
  let h2 := h.getD 2 0
  let h3 := h.getD 3 0
  let h4 := h.getD 4 0
  match ((List.range 80).zip ws).foldl sha1Step (h0, h1, h2, h3, h4) with
  | (a, b, c, d, e) =>
      [w32 (h0 + a), w32 (h1 + b), w32 (h2 + c), w32 (h3 + d), w32 (h4 + e)]

/-- SHA-1 digest (20 bytes) of a byte string. -/
def sha1 (msg : List Nat) : List Nat :=
  let padded := shaPad msg
  let h := shaBlocks sha1Compress (padded.length / 64)
    [1732584193, 4023233417, 2562383102, 271733878, 3285377520] padded
  List.flatten (h.map be32)

/-- HMAC-SHA1 (RFC 2104) with 64-byte block size, as `totp_rs` signs the
step counter. -/
def hmacSha1 (key msg : List Nat) : List Nat :=
  let k0 := if key.length > 64 then sha1 key else key
  let kpad := k0 ++ List.replicate (64 - k0.length) 0
  sha1 ((kpad.map (fun b => b ^^^ 92)) ++ sha1 ((kpad.map (fun b => b ^^^ 54)) ++ msg))

/-! ### `totp_rs` with `Algorithm::SHA1`, 6 digits, skew 1, step 30 -/

/-- `TOTP::generate` for the 6-digit SHA-1 configuration built by
`create_totp`: HMAC over the big-endian step counter `time / 30`,
dynamic truncation, reduce mod `10 ^ 6`.  Codes are modelled by their
numeric value (the source zero-pads to a 6-character string, a bijection
below `10 ^ 6`). -/
def totp_generate (key : List Nat) (time : Nat) : Nat :=
  let digest := hmacSha1 key (be64 (time / 30))
  let offset := digest.getD 19 0 &&& 15
  let dt := (digest.getD offset 0 <<< 24) ||| (digest.getD (offset + 1) 0 <<< 16) |||
    (digest.getD (offset + 2) 0 <<< 8) ||| digest.getD (offset + 3) 0
  (dt &&& 2147483647) % 1000000

/-- `TOTP::check` with the internal `skew = 1` that `create_totp` passes
to `TOTP::new`: compares against the steps `time/30 - 1`, `time/30` and
`time/30 + 1`.  (`basestep` underflow of the Rust `u64` subtraction for
`time < 30` is not modelled; all uses here have `time ≥ 30`.) -/
def totp_check (key : List Nat) (code : Nat) (time : Nat) : Bool :=
  let basestep := time / 30 - 1
  (List.range 3).any (fun i => totp_generate key ((basestep + i) * 30) == code)

/-- The loop body of `verify_totp` (two_factor_service.rs lines 61-83):
for `i in 0..=TOTP_SKEW` check at `time - i*30` (saturating) and at
`time + i*30`, over the decoded secret key. -/
def verify_totp_key (key : List Nat) (code : Nat) (now : Nat) : Bool :=
  (List.range 2).any (fun i =>
    totp_check key code (now - i * 30) || totp_check key code (now + i * 30))

/-- Value of one RFC 4648 base32 character. -/
def b32Val (c : Char) : Option Nat :=
  if 65 ≤ c.toNat ∧ c.toNat ≤ 90 then some (c.toNat - 65)
  else if 50 ≤ c.toNat ∧ c.toNat ≤ 55 then some (c.toNat - 50 + 26)
  else none

/-- Base32 bit accumulator: shift in 5 bits per character, emit a byte
whenever 8 bits are available (`acc` always holds `bits < 8` bits). -/
def b32Bits : List Char → Nat → Nat → Option (List Nat)
  | [], _, _ => some []
  | c :: cs, acc, bits =>
      match b32Val c with
      | none => none
      | some v =>
          let acc2 := acc * 32 + v
          if bits + 5 ≥ 8 then
            match b32Bits cs (acc2 % 2 ^ (bits + 5 - 8)) (bits + 5 - 8) with
            | none => none
            | some rest => some ((acc2 >>> (bits + 5 - 8)) :: rest)
          else
            b32Bits cs acc2 (bits + 5)

/-- `data_encoding::BASE32.decode`: strip the `=` padding tail, decode
the body.  (The crate also rejects non-canonical padding; only
canonically padded inputs occur here.) -/
def base32Decode (s : String) : Option (List Nat) :=
  let body := s.data.takeWhile (fun c => c ≠ '=')
  if (s.data.dropWhile (fun c => c ≠ '=')).all (fun c => c = '=') then
    b32Bits body 0 0
  else
    none

/-- `create_totp` (two_factor_service.rs lines 45-58): pad the secret to
a multiple of 8 with `=`, base32-decode it, and build the TOTP object;
`TOTP::new` rejects keys shorter than 16 bytes (RFC 6238 minimum), so
the result is the decoded key or `none`. -/
def create_totp (secret : String) : Option (List Nat) :=
  let padded :=
    if secret.length % 8 ≠ 0 then
      secret ++ String.mk (List.replicate (8 - secret.length % 8) '=')
    else
      secret
  match base32Decode padded with
  | none => none
  | some key => if key.length < 16 then none else some key

/-- `verify_totp` (two_factor_service.rs lines 61-83) at time `now`
(`SystemTime::now()` in the source); `none` when `create_totp` fails. -/
def verify_totp (secret : String) (code : Nat) (now : Nat) : Option Bool :=
  (create_totp secret).map (fun key => verify_totp_key key code now)

/-- The code of the 30-second step containing time `t`, over a base32
secret: `create_totp(secret)` followed by `TOTP::generate(t)`. -/
def totp_code_at (secret : String) (t : Nat) : Option Nat :=
  (create_totp secret).map (fun key => totp_generate key t)

/-! ## Interleaved model of `validate_and_invalidate_token`

The Rust method issues `GET token_id` and `DEL token_id` as two separate
Redis commands (redis_client.rs lines 57-60 and 63-66), so another
request can run between them.  Each command is one atomic step here. -/

/-- Program counter of one in-flight `validate_and_invalidate_token`
call: before the GET, between GET and DEL (holding the value read), or
returned. -/
inductive RedeemPC where
  | atGet
  | atDel (got : Option String)
  | finished (result : Option String)
deriving DecidableEq, Repr

/-- One atomic command of the GET-then-DEL sequence.  The DEL is issued
only when the GET returned a value, as in the source. -/
def redeemStep (tokenId : String) : RedeemPC → Store → RedeemPC × Store
  | RedeemPC.atGet, s => (RedeemPC.atDel (storeGet s tokenId), s)
  | RedeemPC.atDel (some v), s => (RedeemPC.finished (some v), storeDel s tokenId)
  | RedeemPC.atDel none, s => (RedeemPC.finished none, s)
  | RedeemPC.finished r, s => (RedeemPC.finished r, s)

/-- Two concurrent redemptions of the same token interleaved by a
schedule (`true` = process A takes the next step). -/
def runTwoRedeems (tokenId : String) : List Bool → RedeemPC → RedeemPC → Store →
    RedeemPC × RedeemPC × Store
  | [], a, b, s => (a, b, s)
  | true :: rest, a, b, s =>
      let step := redeemStep tokenId a s
      runTwoRedeems tokenId rest step.1 b step.2
  | false :: rest, a, b, s =>
      let step := redeemStep tokenId b s
      runTwoRedeems tokenId rest a step.1 step.2

/-! ## 2FA persistence and routes (`src/db/data_trait/user_data_trait.rs`,
`src/routers/user.rs` lines 312-420) -/

/-- `UserData::enable_2fa` for `Database` (user_data_trait.rs lines
158-176): `UPDATE users SET two_factor_secret = $1, two_factor_enabled =
$2, updated_at = $3 WHERE uuid = $4` — with `$2` bound to `true`. -/
def db_enable_2fa (secret : String) (now : String) (u : User) : User :=
  { u with two_factor_secret := some secret, two_factor_enabled := true, updated_at := now }

/-- `UserData::verify_2fa` (user_data_trait.rs lines 178-195):
`UPDATE users SET two_factor_enabled = true, updated_at = $2`. -/
def db_verify_2fa (now : String) (u : User) : User :=
  { u with two_factor_enabled := true, updated_at := now }

/-- `UserData::disable_2fa` (user_data_trait.rs lines 197-214):
`UPDATE users SET two_factor_secret = NULL, two_factor_enabled = false`. -/
def db_disable_2fa (now : String) (u : User) : User :=
  { u with two_factor_secret := none, two_factor_enabled := false, updated_at := now }

/-- The `enable_2fa` route (routers/user.rs lines 312-348) for a user
record fetched by uuid.  `bverify` is `bcrypt::verify` (`none` = bcrypt
error), `secret` the freshly generated base32 secret, `qrOk` whether QR
PNG encoding of the provisioning URL succeeds; the success value is the
user row as persisted by `db.enable_2fa`. -/
def enable_2fa_route (u : User) (bverify : String → String → Option Bool)
    (password secret : String) (qrOk : Bool) (now : String) : Except UserError User :=
  match bverify password u.password with
  | none => Except.error UserError.AuthenticationFailure
  | some false => Except.error UserError.InvalidCredentials
  | some true =>
      if u.two_factor_enabled then Except.error UserError.TwoFactorAlreadyEnabled
      else if ¬qrOk then Except.error UserError.QRCodeGenerationFailure
      else Except.ok (db_enable_2fa secret now u)

/-- The `verify_2fa` route (routers/user.rs lines 390-420).
`totpVerify secret` is `verify_totp(secret, &body.code)` (`none` =
error); the success value is the user row as persisted. -/
def verify_2fa_route (u : User) (totpVerify : String → Option Bool) (now : String) :
    Except UserError User :=
  match u.two_factor_secret with
  | none => Except.error UserError.TwoFactorNotEnabled
  | some secret =>
      match totpVerify secret with
      | none => Except.error UserError.InvalidTwoFactorCode
      | some false => Except.error UserError.InvalidTwoFactorCode
      | some true => Except.ok (db_verify_2fa now u)

/-! ## Login endpoints (`src/routers/user.rs` lines 186-271 and 477-528) -/

/-- `login` (routers/user.rs lines 186-271), up to and excluding the
token pair: the success value is the authenticated user record, to which
`generate_token_pair` is then applied.  `cached` is the result of
`get_cached::<User>` on `user:email:<email>`; `dbUser` the result of
`get_user_by_email`; `bverify` is `bcrypt::verify` (`none` = verify
error); `totpVerify secret code` is `verify_totp` (`none` = error).  The
best-effort `set_cached` after a DB fetch ignores failure in the source
and cannot influence the result. -/
def login (cached : Except RedisError (Option User)) (dbUser : Except UserError User)
    (bverify : String → String → Option Bool) (password : String)
    (totp_code : Option String) (totpVerify : String → String → Option Bool) :
    Except UserError User :=
  let authed : Except UserError User :=
    match cached with
    | Except.ok (some user) =>
        match bverify password user.password with
        | none => Except.error UserError.AuthenticationFailure
        | some false => Except.error UserError.InvalidCredentials
        | some true => Except.ok user
    | _ =>
        match dbUser with
        | Except.error UserError.NoSuchUserFound => Except.error UserError.InvalidCredentials
        | Except.error e => Except.error e
        | Except.ok user =>
            match bverify password user.password with
            | none => Except.error UserError.AuthenticationFailure
            | some false => Except.error UserError.InvalidCredentials
            | some true => Except.ok user
  match authed with
  | Except.error e => Except.error e
  | Except.ok user =>
      if user.two_factor_enabled then
        match totp_code with
        | some code =>
            match user.two_factor_secret with
            | none => Except.error UserError.TwoFactorRequired
            | some secret =>
                match totpVerify secret code with
                | none => Except.error UserError.InvalidTwoFactorCode
                | some false => Except.error UserError.InvalidTwoFactorCode
                | some true => Except.ok user
        | none => Except.error UserError.TwoFactorRequired
      else Except.ok user

/-- `login_with_backup_code` (routers/user.rs lines 477-528), up to and
excluding the token pair.  `dbUser` is the result of
`get_user_by_email`, whose error is propagated unchanged by the `?`
operator; `updateUser` is `db.update_user` persisting the consumed code;
the success value is the persisted user row. -/
def login_with_backup_code (dbUser : Except UserError User)
    (bverify : String → String → Option Bool) (password : String)
    (backup_code : List Nat) (updateUser : User → Except UserError User) :
    Except UserError User :=
  match dbUser with
  | Except.error e => Except.error e
  | Except.ok user =>
      match bverify password user.password with
      | none => Except.error (UserError.BadRequest "Invalid email or password")
      | some false => Except.error (UserError.BadRequest "Invalid email or password")
      | some true =>
          if ¬user.two_factor_enabled then
            Except.error (UserError.BadRequest "2FA is not enabled for this user")
          else
            match user.backup_codes with
            | none => Except.error (UserError.BadRequest "No backup codes available")
            | some codes =>
                if codes.isEmpty then
                  Except.error (UserError.BadRequest "No backup codes available")
                else
                  match verify_backup_code (strip_separator backup_code) codes with
                  | some index =>
                      updateUser { user with backup_codes := some (codes.eraseIdx index) }
                  | none => Except.error (UserError.BadRequest "Invalid backup code")

/-! ## Claim theorems -/

/-- C1: issuing a token pair for a user and then redeeming the returned
refresh token sequentially (cache store available throughout) succeeds
exactly once, returning that user id; a second redemption of the same
token fails with `InvalidRefreshToken`. -/
theorem issue_then_redeem_exactly_once (userId tokenId : String) (now : Nat) (s : Store) :
    ∃ accessToken refreshToken s1,
      generate_token_pair userId tokenId now ⟨s, []⟩ =
        (Except.ok (accessToken, refreshToken), ⟨s1, []⟩) ∧
      (validate_refresh_token (some refreshToken) ⟨s1, []⟩).1 = Except.ok userId ∧
      (validate_refresh_token (some refreshToken)
          (validate_refresh_token (some refreshToken) ⟨s1, []⟩).2).1 =
        Except.error UserError.InvalidRefreshToken := by
  refine ⟨_, _, storeSet s tokenId userId 604800, rfl, ?_, ?_⟩
  · simp [validate_refresh_token, validate_and_invalidate_token, popConn,
      generate_jwt_token, storeGet_storeSet_self]
  · simp [validate_refresh_token, validate_and_invalidate_token, popConn,
      generate_jwt_token, storeGet_storeSet_self, storeGet_storeDel_self]

/-- C2: the code performs the read and the delete as two separate cache
commands, so the interleaving GET-A, GET-B, DEL-A, DEL-B of two
concurrent redemptions of the same refresh token lets both return the
stored user id — two successes, not exactly one success and one
`InvalidRefreshToken`. -/
theorem concurrent_redeem_double_success :
    runTwoRedeems "tid" [true, false, true, false] RedeemPC.atGet RedeemPC.atGet
        [("tid", "uid", 604800)] =
      (RedeemPC.finished (some "uid"), RedeemPC.finished (some "uid"), []) := by
  rfl

/-- C4: redemption of a decoded refresh token fails `InvalidRefreshToken`
when the type claim is not "refresh", when no `token_id` record is in the
store, or when the stored user id disagrees with the embedded `user_id`
claim; succeeds with the user id otherwise; and a cache failure surfaces
as `AuthenticationFailure`. -/
theorem validate_refresh_token_cases (claims : Claims) (userId : String) (s : Store)
    (conn : List Bool) :
    (claims.token_type ≠ "refresh" →
      (validate_refresh_token (some claims) ⟨s, conn⟩).1 =
        Except.error UserError.InvalidRefreshToken) ∧
    (claims.token_type = "refresh" → claims.user_id = some userId →
      ((storeGet s claims.sub = none →
        (validate_refresh_token (some claims) ⟨s, []⟩).1 =
          Except.error UserError.InvalidRefreshToken) ∧
      (∀ storedUserId, storeGet s claims.sub = some storedUserId → storedUserId ≠ userId →
        (validate_refresh_token (some claims) ⟨s, []⟩).1 =
          Except.error UserError.InvalidRefreshToken) ∧
      (storeGet s claims.sub = some userId →
        (validate_refresh_token (some claims) ⟨s, []⟩).1 = Except.ok userId) ∧
      (validate_refresh_token (some claims) ⟨s, false :: conn⟩).1 =
        Except.error UserError.AuthenticationFailure)) := by
  constructor
  · intro hty
    simp [validate_refresh_token, hty]
  · intro hty huid
    refine ⟨?_, ?_, ?_, ?_⟩
    · intro hget
      simp [validate_refresh_token, validate_and_invalidate_token, popConn, hty, huid, hget]
    · intro storedUserId hget hne
      simp [validate_refresh_token, validate_and_invalidate_token, popConn, hty, huid,
        hget, hne]
    · intro hget
      simp [validate_refresh_token, validate_and_invalidate_token, popConn, hty, huid, hget]
    · simp [validate_refresh_token, validate_and_invalidate_token, popConn, hty, huid]

/-- C4 witness: the cases of `validate_refresh_token_cases` at the claim
set `⟨"tid", 0, "refresh", some "uid"⟩` against an empty store, a store
holding `tid -> uid`, and a failing cache connection. -/
theorem validate_refresh_token_cases_witness :
    (validate_refresh_token (some ⟨"tid", 0, "refresh", some "uid"⟩) ⟨[], []⟩).1 =
      Except.error UserError.InvalidRefreshToken ∧
    (validate_refresh_token (some ⟨"tid", 0, "refresh", some "uid"⟩)
        ⟨[("tid", "uid", 1)], []⟩).1 = Except.ok "uid" ∧
    (validate_refresh_token (some ⟨"tid", 0, "refresh", some "uid"⟩)
        ⟨[("tid", "uid", 1)], [false]⟩).1 =
      Except.error UserError.AuthenticationFailure :=
  ⟨(((validate_refresh_token_cases ⟨"tid", 0, "refresh", some "uid"⟩ "uid" [] []).2
      rfl rfl).1 (by decide)),
   (((validate_refresh_token_cases ⟨"tid", 0, "refresh", some "uid"⟩ "uid"
      [("tid", "uid", 1)] []).2 rfl rfl).2.2.1 (by decide)),
   (((validate_refresh_token_cases ⟨"tid", 0, "refresh", some "uid"⟩ "uid"
      [("tid", "uid", 1)] []).2 rfl rfl).2.2.2)⟩

/-- C5: `issue_pair` mints an access token (subject = user id, type
"access", one-hour expiry) and a refresh token (subject = fresh token id,
separate `user_id` claim, type "refresh", seven-day expiry); the
`token_id -> user_id` record is persisted with a seven-day TTL before the
pair is returned, and a persistence failure yields the hard error
`TokenCreationFailure` with no token pair. -/
theorem generate_token_pair_spec (userId tokenId : String) (now : Nat) (s : Store)
    (conn : List Bool) :
    generate_token_pair userId tokenId now ⟨s, []⟩ =
      (Except.ok
        ({ sub := userId, exp := now + 3600, token_type := "access", user_id := none },
         { sub := tokenId, exp := now + 604800, token_type := "refresh",
           user_id := some userId }),
       ⟨storeSet s tokenId userId 604800, []⟩) ∧
    (generate_token_pair userId tokenId now ⟨s, false :: conn⟩).1 =
      Except.error UserError.TokenCreationFailure := by
  exact ⟨rfl, rfl⟩

/-- C6: contrary to the PendingSecret state of the spec, a successful
enable-2FA request persists the generated secret with
`two_factor_enabled` already `true` — the `UPDATE` in
`UserData::enable_2fa` binds `true` for the flag, so it does not stay
false until the first verified code. -/
theorem enable_2fa_sets_flag_immediately (u : User) (password secret now : String) :
    enable_2fa_route { u with two_factor_enabled := false }
        (fun _ _ => some true) password secret true now =
      Except.ok (db_enable_2fa secret now { u with two_factor_enabled := false }) ∧
    (db_enable_2fa secret now { u with two_factor_enabled := false }).two_factor_secret =
      some secret ∧
    (db_enable_2fa secret now { u with two_factor_enabled := false }).two_factor_enabled =
      true := by
  exact ⟨rfl, rfl, rfl⟩

/-- C7 counterexample: on a cache-backend error `get_cached` does not
return `None` — it surfaces the Redis error. -/
theorem get_cached_backend_error_is_hard_error :
    (get_cached (fun v => some v) "k" ⟨[], [false]⟩).1 =
      Except.error RedisError.connectionFailure ∧
    (get_cached (fun v => some v) "k" ⟨[], [false]⟩).1 ≠
      (Except.ok none : Except RedisError (Option String)) := by
  refine ⟨rfl, ?_⟩
  intro h
  exact Except.noConfusion h

/-- C7 (amended): `get_cached` returns `Ok(None)` on a cache miss and on
a deserialization failure of the stored value, but a cache-backend error
is propagated as `Err` (which callers such as `login` treat as a miss,
falling back to the source of truth). -/
theorem get_cached_spec {α : Type} (parse : String → Option α) (key : String) (s : Store)
    (conn : List Bool) :
    (storeGet s key = none → (get_cached parse key ⟨s, []⟩).1 = Except.ok none) ∧
    (∀ v, storeGet s key = some v → parse v = none →
      (get_cached parse key ⟨s, []⟩).1 = Except.ok none) ∧
    (∀ v x, storeGet s key = some v → parse v = some x →
      (get_cached parse key ⟨s, []⟩).1 = Except.ok (some x)) ∧
    (get_cached parse key ⟨s, false :: conn⟩).1 =
      Except.error RedisError.connectionFailure := by
  refine ⟨?_, ?_, ?_, ?_⟩
  · intro hget
    simp [get_cached, popConn, hget]
  · intro v hget hparse
    simp [get_cached, popConn, hget, hparse]
  · intro v x hget hparse
    simp [get_cached, popConn, hget, hparse]
  · simp [get_cached, popConn]

/-- C7 amended-claim witness: the three branches of `get_cached_spec` at
a store holding `"k" -> "bad"` (unparseable) and one holding nothing. -/
theorem get_cached_spec_witness :
    (get_cached (fun v => some v) "k" ⟨[], []⟩).1 =
      (Except.ok none : Except RedisError (Option String)) ∧
    (get_cached (fun _ => (none : Option Nat)) "k" ⟨[("k", "bad", 1)], []⟩).1 =
      Except.ok none ∧
    (get_cached (fun v => some v) "k" ⟨[("k", "v", 1)], []⟩).1 =
      Except.ok (some "v") :=
  ⟨(get_cached_spec (fun v => some v) "k" [] []).1 (by decide),
   (get_cached_spec (fun _ => (none : Option Nat)) "k" [("k", "bad", 1)] []).2.1
     "bad" (by decide) rfl,
   (get_cached_spec (fun v => some v) "k" [("k", "v", 1)] []).2.2.1
     "v" "v" (by decide) rfl⟩

/-- C8 counterexample: in `login_with_backup_code` an unknown email is
not collapsed into `InvalidCredentials` — `get_user_by_email`'s
`NoSuchUserFound` propagates unchanged through the `?` operator, while a
wrong password yields `BadRequest`, so the two runs are distinguishable. -/
theorem backup_login_unknown_email_distinguishable :
    login_with_backup_code (Except.error UserError.NoSuchUserFound)
        (fun _ _ => some true) "pw" [] (fun u => Except.ok u) =
      Except.error UserError.NoSuchUserFound ∧
    UserError.NoSuchUserFound ≠ UserError.InvalidCredentials ∧
    UserError.NoSuchUserFound ≠ UserError.BadRequest "Invalid email or password" := by
  refine ⟨rfl, by decide, by decide⟩

/-- C8 (amended): the plain `login` endpoint collapses unknown email and
wrong password into the same `InvalidCredentials`; the backup-code login
endpoint does not — it returns `NoSuchUserFound` for an unknown email
and `BadRequest("Invalid email or password")` for a wrong password. -/
theorem login_enumeration_behaviour (bverify : String → String → Option Bool)
    (password : String) (totp_code : Option String)
    (totpVerify : String → String → Option Bool) (backup_code : List Nat)
    (updateUser : User → Except UserError User) :
    (login (Except.ok none) (Except.error UserError.NoSuchUserFound) bverify password
        totp_code totpVerify = Except.error UserError.InvalidCredentials) ∧
    (∀ u : User, bverify password u.password = some false →
      login (Except.ok none) (Except.ok u) bverify password totp_code totpVerify =
        Except.error UserError.InvalidCredentials) ∧
    (∀ e, login_with_backup_code (Except.error e) bverify password backup_code updateUser =
      Except.error e) ∧
    (∀ u : User, bverify password u.password = some false →
      login_with_backup_code (Except.ok u) bverify password backup_code updateUser =
        Except.error (UserError.BadRequest "Invalid email or password")) := by
  refine ⟨rfl, ?_, fun e => rfl, ?_⟩
  · intro u hpw
    simp [login, hpw]
  · intro u hpw
    simp [login_with_backup_code, hpw]

/-- C8 amended-claim witness: `login_enumeration_behaviour` at a
password verifier that rejects everything, for a concrete user row. -/
theorem login_enumeration_behaviour_witness :
    login (Except.ok none) (Except.ok ⟨"id", "e", "n", "h", "c", "u", false, none, none⟩)
        (fun _ _ => some false) "pw" none (fun _ _ => some true) =
      Except.error UserError.InvalidCredentials ∧
    login_with_backup_code (Except.ok ⟨"id", "e", "n", "h", "c", "u", false, none, none⟩)
        (fun _ _ => some false) "pw" [] (fun u => Except.ok u) =
      Except.error (UserError.BadRequest "Invalid email or password") :=
  ⟨(login_enumeration_behaviour (fun _ _ => some false) "pw" none (fun _ _ => some true)
      [] (fun u => Except.ok u)).2.1 ⟨"id", "e", "n", "h", "c", "u", false, none, none⟩ rfl,
   (login_enumeration_behaviour (fun _ _ => some false) "pw" none (fun _ _ => some true)
      [] (fun u => Except.ok u)).2.2.2 ⟨"id", "e", "n", "h", "c", "u", false, none, none⟩ rfl⟩

/-- C10: when redemption of a refresh token succeeds but a later step of
the refresh endpoint fails (user lookup fails, or persisting the new
pair fails), the consumed `token_id` record is not restored: the request
errors, yet retrying the same refresh token fails `InvalidRefreshToken`. -/
theorem refresh_failure_keeps_token_consumed (claims : Claims) (s : Store)
    (userId : String) (db : String → Except UserError User) (newTokenId : String)
    (now : Nat) (h1 : claims.token_type = "refresh") (h2 : claims.user_id = some userId)
    (h3 : storeGet s claims.sub = some userId) :
    (∀ e, db userId = Except.error e →
      refresh_token_endpoint (some claims) db newTokenId now ⟨s, []⟩ =
        (Except.error e, ⟨storeDel s claims.sub, []⟩)) ∧
    (∀ user, db userId = Except.ok user →
      (refresh_token_endpoint (some claims) db newTokenId now ⟨s, [true, false]⟩).1 =
        Except.error UserError.TokenCreationFailure ∧
      (refresh_token_endpoint (some claims) db newTokenId now ⟨s, [true, false]⟩).2.store =
        storeDel s claims.sub) ∧
    (validate_refresh_token (some claims) ⟨storeDel s claims.sub, []⟩).1 =
      Except.error UserError.InvalidRefreshToken := by
  refine ⟨?_, ?_, ?_⟩
  · intro e he
    simp [refresh_token_endpoint, validate_refresh_token, validate_and_invalidate_token,
      popConn, h1, h2, h3, he]
  · intro user hu
    constructor <;>
      simp [refresh_token_endpoint, validate_refresh_token, validate_and_invalidate_token,
        popConn, generate_token_pair, store_token_state, h1, h2, h3, hu]
  · simp [validate_refresh_token, validate_and_invalidate_token, popConn, h1, h2,
      storeGet_storeDel_self]

/-- C10 witness: a concrete refresh claim set against a store holding its
record, with a user store in which the user no longer exists. -/
theorem refresh_failure_keeps_token_consumed_witness :
    refresh_token_endpoint (some ⟨"tid", 0, "refresh", some "uid"⟩)
        (fun _ => Except.error UserError.NoSuchUserFound) "tid2" 0
        ⟨[("tid", "uid", 604800)], []⟩ =
      (Except.error UserError.NoSuchUserFound, ⟨[], []⟩) ∧
    (validate_refresh_token (some ⟨"tid", 0, "refresh", some "uid"⟩) ⟨[], []⟩).1 =
      Except.error UserError.InvalidRefreshToken :=
  ⟨(refresh_failure_keeps_token_consumed ⟨"tid", 0, "refresh", some "uid"⟩
      [("tid", "uid", 604800)] "uid" (fun _ => Except.error UserError.NoSuchUserFound)
      "tid2" 0 rfl rfl (by decide)).1 UserError.NoSuchUserFound rfl,
   (refresh_failure_keeps_token_consumed ⟨"tid", 0, "refresh", some "uid"⟩
      [("tid", "uid", 604800)] "uid" (fun _ => Except.error UserError.NoSuchUserFound)
      "tid2" 0 rfl rfl (by decide)).2.2⟩

/-- In a duplicate-free list, searching for the element at position `i`
finds exactly position `i`. -/
theorem findIdx?_beq_getElem_of_nodup {α : Type} [BEq α] [LawfulBEq α] (l : List α) (i : Nat)
    (hi : i < l.length) (hnd : l.Nodup) :
    l.findIdx? (fun a => a == l[i]) = some i := by
  induction l generalizing i with
  | nil => exact absurd hi (by simp)
  | cons x xs ih =>
      match i with
      | 0 => simp
      | j + 1 =>
          have hj : j < xs.length := by simpa using hi
          have hx : x ∉ xs := (List.nodup_cons.mp hnd).1
          have hne : (x == xs[j]) = false := by
            exact beq_eq_false_iff_ne.mpr (fun h => hx (h ▸ xs.getElem_mem hj))
          have : (x :: xs)[j + 1] = xs[j] := by simp
          rw [this, List.findIdx?_cons, if_neg (by simp [hne]), List.findIdx?_succ,
            ih j hj (List.nodup_cons.mp hnd).2]
          rfl

/-- The `i`-th backup code drawn from the draw sequence `σ`. -/
theorem backup_plain_codes_getElem (σ : Nat → Fin 36) (n i : Nat)
    (hi : i < (backup_plain_codes σ n).length) :
    (backup_plain_codes σ n)[i] =
      (List.range 10).map (fun j => backup_char (σ (i * 10 + j))) := by
  simp [backup_plain_codes]

/-- Every backup-code character is a decimal digit or a lowercase
letter. -/
theorem backup_char_range (v : Fin 36) :
    (48 ≤ backup_char v ∧ backup_char v ≤ 57) ∨
      (97 ≤ backup_char v ∧ backup_char v ≤ 122) := by
  unfold backup_char
  rcases Nat.lt_or_ge v.val 10 with h | h
  · rw [if_pos h]
    left
    omega
  · rw [if_neg (by omega)]
    right
    have := v.isLt
    omega

/-- Stripping the display separator recovers a separator-free code of
full length. -/
theorem strip_format_of_code (code : List Nat) (hlen : code.length = 10)
    (hb : ∀ b ∈ code, b ≠ 45) :
    strip_separator (format_backup_code code) = code := by
  unfold format_backup_code
  rw [if_pos (by omega)]
  unfold strip_separator
  rw [List.filter_append]
  have htake : List.filter (fun b => b != 45) (code.take 5) = code.take 5 :=
    List.filter_eq_self.mpr
      (fun b hbm => by simpa using hb b (List.take_subset 5 code hbm))
  have hdrop : List.filter (fun b => b != 45) (code.drop 5) = code.drop 5 :=
    List.filter_eq_self.mpr
      (fun b hbm => by simpa using hb b (List.drop_subset 5 code hbm))
  have h45 : ((45 : Nat) != 45) = false := by decide
  rw [htake, List.filter_cons, h45]
  simp only [Bool.false_eq_true, if_false]
  rw [hdrop, List.take_append_drop]

/-- C9: every generated backup code is exactly 10 bytes from the
36-symbol lowercase-alphanumeric alphabet, stripping the display
separator recovers the code, and verifying the stripped code against the
generated digest list locates it at its index (the digests being
pairwise distinct). -/
theorem backup_codes_roundtrip (σ : Nat → Fin 36) (count : Option Nat) (i : Nat)
    (hi : i < (generate_backup_codes σ count).1.length)
    (hnd : (generate_backup_codes σ count).2.Nodup) :
    ((generate_backup_codes σ count).1[i].length = 10 ∧
      ∀ b ∈ (generate_backup_codes σ count).1[i],
        (48 ≤ b ∧ b ≤ 57) ∨ (97 ≤ b ∧ b ≤ 122)) ∧
    strip_separator (format_backup_code (generate_backup_codes σ count).1[i]) =
      (generate_backup_codes σ count).1[i] ∧
    verify_backup_code
        (strip_separator (format_backup_code (generate_backup_codes σ count).1[i]))
        (generate_backup_codes σ count).2 = some i := by
  have hi' : i < (backup_plain_codes σ (count.getD 10)).length := hi
  have hcode : (generate_backup_codes σ count).1[i] =
      (List.range 10).map (fun j => backup_char (σ (i * 10 + j))) :=
    backup_plain_codes_getElem σ (count.getD 10) i hi'
  have hmem : ∀ b ∈ (generate_backup_codes σ count).1[i],
      (48 ≤ b ∧ b ≤ 57) ∨ (97 ≤ b ∧ b ≤ 122) := by
    intro b hbm
    rw [hcode] at hbm
    obtain ⟨j, _, rfl⟩ := List.mem_map.mp hbm
    exact backup_char_range _
  have hlen : (generate_backup_codes σ count).1[i].length = 10 := by
    rw [hcode]
    simp
  have hne45 : ∀ b ∈ (generate_backup_codes σ count).1[i], b ≠ 45 := by
    intro b hbm
    rcases hmem b hbm with h | h <;> omega
  have hstrip := strip_format_of_code _ hlen hne45
  refine ⟨⟨hlen, hmem⟩, hstrip, ?_⟩
  rw [hstrip]
  have hhash : (generate_backup_codes σ count).2 =
      (backup_plain_codes σ (count.getD 10)).map backup_hash := rfl
  have hlen2 : i < ((generate_backup_codes σ count).2).length := by
    rw [hhash, List.length_map]
    exact hi'
  have hgetHash : backup_hash (generate_backup_codes σ count).1[i] =
      (generate_backup_codes σ count).2[i] := by
    simp [hhash]
    rfl
  unfold verify_backup_code
  rw [hgetHash]
  exact findIdx?_beq_getElem_of_nodup _ i hlen2 hnd

/-- C9 witness: the round trip for the draw sequence `n % 36` with two
codes ("0123456789" and "abcdefghij"), locating the second code. -/
theorem backup_codes_roundtrip_witness :
    verify_backup_code
        (strip_separator (format_backup_code
          (generate_backup_codes (fun n => ⟨n % 36, Nat.mod_lt n (by decide)⟩)
            (some 2)).1[1]))
        (generate_backup_codes (fun n => ⟨n % 36, Nat.mod_lt n (by decide)⟩)
          (some 2)).2 = some 1 :=
  (backup_codes_roundtrip (fun n => ⟨n % 36, Nat.mod_lt n (by decide)⟩) (some 2) 1
    (by decide) (by decide)).2.2

/-- C9 counterexample: `verify_backup_code` returns the position of the
first matching digest, so when the draw sequence repeats a code (here
both codes are "0000000000") the second generated code is located at
index 0, not at its own index 1. -/
theorem backup_code_duplicate_located_at_first_index :
    verify_backup_code
        (strip_separator (format_backup_code
          ((generate_backup_codes (fun _ => (⟨0, by omega⟩ : Fin 36)) (some 2)).1.getD 1 [])))
        (generate_backup_codes (fun _ => (⟨0, by omega⟩ : Fin 36)) (some 2)).2 = some 0 ∧
    (some 0 : Option Nat) ≠ some 1 := by
  exact ⟨by decide, by decide⟩

/-- The acceptance window of `verify_totp`: the outer ±1-step loop of
`verify_totp` composes with the internal skew 1 that `create_totp` hands
to `TOTP::new`, so a candidate is accepted exactly when it is the code of
one of the five steps within two steps of the current one. -/
theorem verify_totp_window (key : List Nat) (code now : Nat) (h : 60 ≤ now) :
    verify_totp_key key code now = true ↔
      ∃ j, j ≤ 4 ∧ totp_generate key ((now / 30 - 2 + j) * 30) = code := by
  obtain ⟨q, r, hr, rfl⟩ : ∃ q r, r < 30 ∧ now = 30 * q + r :=
    ⟨now / 30, now % 30, Nat.mod_lt _ (by omega), (Nat.div_add_mod now 30).symm⟩
  have hq : 2 ≤ q := by omega
  have hdiv30 : ∀ m : Nat, (30 * m + r) / 30 = m := by
    intro m
    rw [Nat.mul_add_div (by omega), Nat.div_eq_of_lt hr, Nat.add_zero]
  have hA : (30 * q + r - 0 * 30) / 30 = q := by
    rw [show 30 * q + r - 0 * 30 = 30 * q + r by omega, hdiv30]
  have hA' : (30 * q + r + 0 * 30) / 30 = q := by
    rw [show 30 * q + r + 0 * 30 = 30 * q + r by omega, hdiv30]
  have hB : (30 * q + r - 1 * 30) / 30 = q - 1 := by
    rw [show 30 * q + r - 1 * 30 = 30 * (q - 1) + r by omega, hdiv30]
  have hC : (30 * q + r + 1 * 30) / 30 = q + 1 := by
    rw [show 30 * q + r + 1 * 30 = 30 * (q + 1) + r by omega, hdiv30]
  have hD : (30 * q + r) / 30 = q := hdiv30 q
  have gcong : ∀ a b : Nat, a = b → totp_generate key (a * 30) = code →
      totp_generate key (b * 30) = code := by
    intro a b hab hg
    rwa [hab] at hg
  simp only [verify_totp_key, totp_check, List.any_eq_true, List.mem_range,
    Bool.or_eq_true, beq_iff_eq]
  simp only [hD]
  constructor
  · rintro ⟨i, hi, hcase⟩
    interval_cases i
    · rcases hcase with ⟨j, hj, hgen⟩ | ⟨j, hj, hgen⟩
      · interval_cases j
        · simp only [hA] at hgen
          exact ⟨1, by omega, gcong _ _ (by omega) hgen⟩
        · simp only [hA] at hgen
          exact ⟨2, by omega, gcong _ _ (by omega) hgen⟩
        · simp only [hA] at hgen
          exact ⟨3, by omega, gcong _ _ (by omega) hgen⟩
      · interval_cases j
        · simp only [hA'] at hgen
          exact ⟨1, by omega, gcong _ _ (by omega) hgen⟩
        · simp only [hA'] at hgen
          exact ⟨2, by omega, gcong _ _ (by omega) hgen⟩
        · simp only [hA'] at hgen
          exact ⟨3, by omega, gcong _ _ (by omega) hgen⟩
    · rcases hcase with ⟨j, hj, hgen⟩ | ⟨j, hj, hgen⟩
      · interval_cases j
        · simp only [hB] at hgen
          exact ⟨0, by omega, gcong _ _ (by omega) hgen⟩
        · simp only [hB] at hgen
          exact ⟨1, by omega, gcong _ _ (by omega) hgen⟩
        · simp only [hB] at hgen
          exact ⟨2, by omega, gcong _ _ (by omega) hgen⟩
      · interval_cases j
        · simp only [hC] at hgen
          exact ⟨2, by omega, gcong _ _ (by omega) hgen⟩
        · simp only [hC] at hgen
          exact ⟨3, by omega, gcong _ _ (by omega) hgen⟩
        · simp only [hC] at hgen
          exact ⟨4, by omega, gcong _ _ (by omega) hgen⟩
  · rintro ⟨j, hj, hgen⟩
    interval_cases j
    · refine ⟨1, by omega, Or.inl ⟨0, by omega, ?_⟩⟩
      simp only [hB]
      exact gcong _ _ (by omega) hgen
    · refine ⟨0, by omega, Or.inl ⟨0, by omega, ?_⟩⟩
      simp only [hA]
      exact gcong _ _ (by omega) hgen
    · refine ⟨0, by omega, Or.inl ⟨1, by omega, ?_⟩⟩
      simp only [hA]
      exact gcong _ _ (by omega) hgen
    · refine ⟨0, by omega, Or.inl ⟨2, by omega, ?_⟩⟩
      simp only [hA]
      exact gcong _ _ (by omega) hgen
    · refine ⟨1, by omega, Or.inr ⟨2, by omega, ?_⟩⟩
      simp only [hC]
      exact gcong _ _ (by omega) hgen

/-- C3 (amended): for a secret whose key decodes and any time at least
two steps in, TOTP verification accepts a candidate exactly when it
equals the code of one of the five 30-second steps within two steps of
the current one — an effective skew of 2, because the ±1-step loop in
`verify_totp` composes with the internal skew 1 of the `totp_rs` object;
codes three or more steps away (such as a code from 90 seconds in the
past) are accepted only if they collide with one of those five. -/
theorem verify_totp_effective_skew_two (secret : String) (key : List Nat) (code now : Nat)
    (hkey : create_totp secret = some key) (hnow : 60 ≤ now) :
    verify_totp secret code now = some true ↔
      ∃ j, j ≤ 4 ∧ totp_code_at secret ((now / 30 - 2 + j) * 30) = some code := by
  unfold verify_totp totp_code_at
  rw [hkey]
  simp only [Option.map_some']
  constructor
  · intro h
    obtain ⟨j, hj, hg⟩ :=
      (verify_totp_window key code now hnow).mp (Option.some.inj h)
    exact ⟨j, hj, by rw [hg]⟩
  · rintro ⟨j, hj, hg⟩
    exact congrArg some
      ((verify_totp_window key code now hnow).mpr ⟨j, hj, Option.some.inj hg⟩)

set_option maxRecDepth 1000000

set_option maxHeartbeats 16000000

/-- C3 amended-claim witness: the acceptance-window equivalence at the
RFC 6238 test secret and `now = 1111111109`. -/
theorem verify_totp_effective_skew_two_witness :
    verify_totp "GEZDGNBVGY3TQOJQGEZDGNBVGY3TQOJQ" 266759 1111111109 = some true ↔
      ∃ j, j ≤ 4 ∧ totp_code_at "GEZDGNBVGY3TQOJQGEZDGNBVGY3TQOJQ"
        ((1111111109 / 30 - 2 + j) * 30) = some 266759 :=
  verify_totp_effective_skew_two "GEZDGNBVGY3TQOJQGEZDGNBVGY3TQOJQ"
    [49, 50, 51, 52, 53, 54, 55, 56, 57, 48, 49, 50, 51, 52, 53, 54, 55, 56, 57, 48]
    266759 1111111109 (by decide) (by decide)

/-- C3 counterexample: at the RFC 6238 test secret and
`t = 1111111109`, the code `150727` of step `t/30 - 2` (the step of
`t - 60`) is accepted by `verify_totp` although it is not the code of
the current step, the step before, or the step after — so acceptance is
not "exactly the three steps of skew 1". -/
theorem verify_totp_accepts_code_two_steps_away :
    verify_totp "GEZDGNBVGY3TQOJQGEZDGNBVGY3TQOJQ" 150727 1111111109 = some true ∧
    totp_code_at "GEZDGNBVGY3TQOJQGEZDGNBVGY3TQOJQ" (1111111109 - 30) ≠ some 150727 ∧
    totp_code_at "GEZDGNBVGY3TQOJQGEZDGNBVGY3TQOJQ" 1111111109 ≠ some 150727 ∧
    totp_code_at "GEZDGNBVGY3TQOJQGEZDGNBVGY3TQOJQ" (1111111109 + 30) ≠ some 150727 := by
  exact ⟨by decide, by decide, by decide, by decide⟩

end TodoBackend
